import Mathlib

/-!
Verification of the adapter normalization core of the `dh-dbutilities`
database-access layer.

The JavaScript sources are shallowly embedded:

* SQL statements are `List Char` (JS strings are sequences of UTF-16 code
  units; all statements involved here are plain text).
* JS runtime values that flow through the parameter paths are modelled by
  `JSVal` (date-like object, character string, whole/fractional number,
  boolean, null, undefined), which is exactly the shape information the
  source inspects (`_.isDate`, `_.isString`, `_.isNumber` + `isInt`,
  `_.isBoolean`).
* Asynchronous driver calls (`pool.getConnection`, `begin`, `commit`,
  `rollback`, `prepare`, `execute`) are oracles: an environment record
  fixes each call's outcome, and the embedded function returns the ordered
  list of observable actions (acquire/release/begin/commit/rollback/log)
  plus the final callback invocation, exactly following the source's
  callback nesting.
* A JS `undefined` flowing into a string position is modelled by `Option`
  (`none` = undefined), with JS string coercion of `undefined` rendered as
  the text `undefined`, as `+` does in JavaScript.
-/

--======================================================================
-- Generic character-list utilities
--======================================================================

/-- Count of `?` placeholder characters in a statement. -/
def qCount : List Char → Nat
  | [] => 0
  | c :: t => (if c == '?' then 1 else 0) + qCount t

/-- Index of the first `?` in a character list (`String.indexOf('?')`),
`none` when there is no occurrence. -/
def qIdx : List Char → Option Nat
  | [] => none
  | c :: t => if c == '?' then some 0 else (qIdx t).map (· + 1)

/-- `str.indexOf('?', start)` of JavaScript: index of the first `?` at
position `start` or later (absolute index), `none` when there is none. -/
def qIdxFrom (s : List Char) (start : Nat) : Option Nat :=
  (qIdx (s.drop start)).map (· + start)

/-- Decimal digit character: `digitChar d` is the character for `d` when
`d ≤ 9` (callers only pass `n % 10` or `n < 10`). -/
def digitChar : Nat → Char
  | 0 => '0' | 1 => '1' | 2 => '2' | 3 => '3' | 4 => '4'
  | 5 => '5' | 6 => '6' | 7 => '7' | 8 => '8' | _ => '9'

/-- Decimal digits of `n`, most significant first, with explicit fuel
(`fuel ≥ n + 1` always suffices); embeds JavaScript
`Number.prototype.toString` on the non-negative integers used as
parameter indices. -/
def natChars : Nat → Nat → List Char
  | 0, _ => []
  | fuel + 1, n => if n < 10 then [digitChar n] else natChars fuel (n / 10) ++ [digitChar (n % 10)]

/-- Decimal rendering of `n` (`n.toString()` in the source). -/
def natStr (n : Nat) : List Char := natChars (n + 1) n

/-- Does the list start with the given pattern? (`lastIndexOf(pat, 0) === 0`
in the source is exactly a starts-with test.) -/
def startsWithL : List Char → List Char → Bool
  | [], _ => true
  | _ :: _, [] => false
  | a :: as, b :: bs => a == b && startsWithL as bs

/-- Substring containment, `indexOf(needle) >= 0` in JavaScript. -/
def substrB (needle : List Char) : List Char → Bool
  | [] => startsWithL needle []
  | c :: t => startsWithL needle (c :: t) || substrB needle t

/-- ASCII lower-casing of one character, the fragment of JavaScript
`toLowerCase` relevant to the SQL keywords compared here. -/
def asciiLower (c : Char) : Char :=
  if 65 ≤ c.toNat && c.toNat ≤ 90 then Char.ofNat (c.toNat + 32) else c

/-- Modelled from the spec: `StringUtils.contains(hay, needle, false)` of
the external `dh-node-utilities` collaborator, specified as
"case-insensitive substring match". -/
def containsCI (needle hay : List Char) : Bool :=
  substrB (needle.map asciiLower) (hay.map asciiLower)

/-- Fuel-driven worker for `replaceAllL`; one unit of fuel per character
of the subject string is enough because every step consumes at least one
character. -/
def replaceAllGo (pat repl : List Char) : Nat → List Char → List Char
  | _, [] => []
  | 0, s => s
  | fuel + 1, c :: t =>
    if startsWithL pat (c :: t) then repl ++ replaceAllGo pat repl fuel (t.drop (pat.length - 1))
    else c :: replaceAllGo pat repl fuel t

/-- Embeds `StringUtils.replaceAll(stringValue, valueToReplace, replaceWith)`
(src/unnamed/part_000 lines 31-42): the search pattern is regex-escaped by
`escapeMetaCharacters` before being compiled with the `g` flag, so the
semantics is global literal left-to-right non-overlapping replacement. -/
def replaceAllL (pat repl s : List Char) : List Char :=
  replaceAllGo pat repl s.length s

--======================================================================
-- JS runtime value shapes and the Type Inferrer
--======================================================================

/-- Runtime shape of a raw JavaScript parameter value, as distinguished by
the source's checks (`_.isDate`, `_.isString`, `_.isNumber` with
`isInt(n) = (n % 1 === 0)`, `_.isBoolean`). -/
inductive JSVal
  | str (s : String)
  | num (whole : Bool)
  | boolV (b : Bool)
  | dateV
  | nullV
  | undef
deriving DecidableEq

/-- The `mssql` driver column types selected by `getType`. -/
inductive SqlType
  | dateTime
  | nVarChar
  | intT
  | decimalT
  | bit
deriving DecidableEq

/-- Embeds `getType` (src/database-adapters/mssql-adapter.js lines 531-552):
first match wins over date, string, number (integer vs decimal via `isInt`),
boolean, with `NVarChar` as the fallback. -/
def getType : JSVal → SqlType
  | .dateV => .dateTime
  | .str _ => .nVarChar
  | .num whole => if whole then .intT else .decimalT
  | .boolV _ => .bit
  | .nullV => .nVarChar
  | .undef => .nVarChar

--======================================================================
-- MSSQL placeholder translation (named parameters)
--======================================================================

/-- The synthesized parameter name `'param' + index.toString()`. -/
def pname (k : Nat) : List Char := ['p', 'a', 'r', 'a', 'm'] ++ natStr k

/-- The text substituted for the `?` found at iteration `k` by the MSSQL
translator: `'@' + paramName`. -/
def msRepl (k : Nat) : List Char := '@' :: pname k

/-- The translated query produced by `convertQueryAndParamsForMSSql`: the
rewritten SQL, the `ps.input(paramName, type)` registrations in call
order, and the `result.values` name/value mapping in insertion order
(JS object keys `param0`, `param1`, … are pairwise distinct, so an ordered
association list is a faithful model; a missing `params[index]` is the JS
`undefined`, modelled as `none`). -/
structure MsQuery where
  sql : List Char
  types : List (List Char × SqlType)
  values : List (List Char × Option JSVal)
deriving DecidableEq

/-- The `while((i=query.indexOf('?', i+1)) >= 0)` loop of
`convertQueryAndParamsForMSSql` (src/database-adapters/mssql-adapter.js
lines 493-525), with explicit fuel. Each iteration finds the next `?` at
position ≥ `start`, splices in `'@' + paramName` (which contains no `?`),
registers `ps.input(paramName, getType(params[index]))`, stores
`values[paramName] = params[index]`, and continues searching from the
found position + 1. The loop runs once per `?` found, so any
`fuel ≥ qCount (s.drop start)` reaches the fixpoint. -/
def msLoop (params : List JSVal) :
    Nat → List Char → Nat → Nat →
    List (List Char × SqlType) → List (List Char × Option JSVal) →
    MsQuery
  | 0, s, _, _, tys, vals => ⟨s, tys, vals⟩
  | fuel + 1, s, start, index, tys, vals =>
    match qIdxFrom s start with
    | none => ⟨s, tys, vals⟩
    | some i =>
      msLoop params fuel
        (s.take i ++ ('@' :: pname index) ++ s.drop (i + 1))
        (i + 1) (index + 1)
        (tys ++ [(pname index, getType (params.getD index JSVal.undef))])
        (vals ++ [(pname index, params.get? index)])

/-- Embeds `convertQueryAndParamsForMSSql(query, params, ps)`
(src/database-adapters/mssql-adapter.js lines 493-525). Note the source
initializes `let i = 0` and searches with `query.indexOf('?', i+1)`, so
the very first search starts at string position 1. -/
def convertQueryAndParamsForMSSql (query : List Char) (params : List JSVal) : MsQuery :=
  msLoop params (query.length + 1) query 1 0 [] []

--======================================================================
-- PostgreSQL placeholder translation (sequential numbering)
--======================================================================

/-- The text substituted for the `k`-th placeholder by the PostgreSQL
translator: `'$' + index.toString()`. -/
def pgRepl (k : Nat) : List Char := '$' :: natStr k

/-- The `while((i=str.indexOf('?',i+1)) >= 0)` loop of
`replacePlaceHolders` (src/database-adapters/postgresql-adapter.js lines
373-391), with explicit fuel; `index` starts at 1, the search cursor `i`
starts at -1 so the first search begins at position 0. -/
def pgLoop : Nat → List Char → Nat → Nat → List Char
  | 0, s, _, _ => s
  | fuel + 1, s, start, index =>
    match qIdxFrom s start with
    | none => s
    | some i =>
      pgLoop fuel (s.take i ++ ('$' :: natStr index) ++ s.drop (i + 1)) (i + 1) (index + 1)

/-- Embeds `replacePlaceHolders(str)`
(src/database-adapters/postgresql-adapter.js lines 373-391). -/
def replacePlaceHolders (s : List Char) : List Char :=
  pgLoop (s.length + 1) s 0 1

/-- Embeds `addReturningID(statement, idField)`
(src/database-adapters/postgresql-adapter.js lines 406-417): when the
statement contains `insert` case-insensitively and does not already
contain `returning`, append `' RETURNING ' + idField`; `idField = none`
models the JS `undefined` argument, which string concatenation renders as
the literal text `undefined`. -/
def addReturningID (statement : List Char) (idField : Option (List Char)) : List Char :=
  if containsCI ['i', 'n', 's', 'e', 'r', 't'] statement then
    if containsCI ['r', 'e', 't', 'u', 'r', 'n', 'i', 'n', 'g'] statement then statement
    else
      statement ++ ([' ', 'R', 'E', 'T', 'U', 'R', 'N', 'I', 'N', 'G', ' '] ++
        (match idField with
         | some f => f
         | none => ['u', 'n', 'd', 'e', 'f', 'i', 'n', 'e', 'd']))
  else statement

/-- The statement text sent to the driver by `runStatementReturnResult`
(src/database-adapters/postgresql-adapter.js lines 195-230): the source
calls `replacePlaceHolders(statement, idField)` (the second argument is
ignored by that function) and then `addReturningID(query)` — with NO
second argument, so `idField` inside `addReturningID` is `undefined`. -/
def pgReturnResultQuery (statement : List Char) (idField : List Char) : List Char :=
  let _ := idField
  addReturningID (replacePlaceHolders statement) none

/-- The statement text sent to the driver by
`runStatementInTransactionReturnResult`
(src/database-adapters/postgresql-adapter.js lines 265-282): here the
source does pass the field, `addReturningID(query, idField)`. -/
def pgInTxReturnResultQuery (statement : List Char) (idField : List Char) : List Char :=
  addReturningID (replacePlaceHolders statement) (some idField)

--======================================================================
-- Spec-side scanners (the claims' left-to-right description)
--======================================================================

/-- Spec-side description of placeholder translation: walk the statement
left to right, replace the `k`-th `?` (0-based from the start value) by
`repl k`, keep every other character unchanged. -/
def scanQ (repl : Nat → List Char) : List Char → Nat → List Char
  | [], _ => []
  | c :: t, k => if c == '?' then repl k ++ scanQ repl t (k + 1) else c :: scanQ repl t k

/-- Spec-side description of the MSSQL name/value mapping: the `k`-th `?`
records the `k`-th parameter value under the key `param<k>`. -/
def scanVals (params : List JSVal) : List Char → Nat → List (List Char × Option JSVal)
  | [], _ => []
  | c :: t, k =>
    if c == '?' then (pname k, params.get? k) :: scanVals params t (k + 1)
    else scanVals params t k

/-- Spec-side description of the MSSQL type registrations: the `k`-th `?`
registers `param<k>` with the inferred type of the `k`-th parameter. -/
def scanTys (params : List JSVal) : List Char → Nat → List (List Char × SqlType)
  | [], _ => []
  | c :: t, k =>
    if c == '?' then (pname k, getType (params.getD k JSVal.undef)) :: scanTys params t (k + 1)
    else scanTys params t k

--======================================================================
-- Debug rendering (queryToString)
--======================================================================

/-- A parameter as consumed by `queryToString` (src/index.js lines
461-490): the source distinguishes character strings, date objects
(rendered through `dateToString`, whose output we carry opaquely since no
claim constrains it), and everything else (appended through JS string
coercion, carried as its rendered text). -/
inductive QParam
  | str (s : List Char)
  | date (rendered : List Char)
  | lit (rendered : List Char)
deriving DecidableEq

/-- The text `queryToString` appends for one consumed parameter
(`none` = the parameter list is exhausted, JS reads `undefined` and
coerces it to the text `undefined`). -/
def renderQP : Option QParam → List Char
  | some (.str s) =>
    if startsWithL ['[', '@', ']'] s then replaceAllL ['[', '@', ']'] ['@'] s
    else '\'' :: (replaceAllL ['\''] ['\\', '\''] s ++ ['\''])
  | some (.date r) => '\'' :: (r ++ ['\''])
  | some (.lit r) => r
  | none => ['u', 'n', 'd', 'e', 'f', 'i', 'n', 'e', 'd']

/-- The character loop of `queryToString` (src/index.js lines 461-490):
walk the SQL text; each `?` appends the rendering of
`params[paramsIndex]` and increments `paramsIndex`; every other character
is copied. A string parameter starting with `[@]` is appended unquoted
with every `[@]` replaced by `@`; any other string is single-quoted with
each embedded quote replaced by backslash-quote; a date is quoted; other
values are coerced. -/
def queryToStringGo (params : List QParam) : List Char → Nat → List Char
  | [], _ => []
  | c :: t, idx =>
    if c == '?' then renderQP (params.get? idx) ++ queryToStringGo params t (idx + 1)
    else c :: queryToStringGo params t idx

/-- Embeds `queryToString(sql, params)` (src/index.js lines 461-490). -/
def queryToString (sqlText : List Char) (params : List QParam) : List Char :=
  queryToStringGo params sqlText 0

--======================================================================
-- Facade dispatch (index.js) before configuration
--======================================================================

/-- The public operations of the Facade (src/index.js). -/
inductive FacadeCall
  | runStringQuery
  | runQuery
  | runStatement
  | runStatementReturnResult
  | runStatementInTransaction
  | runStatementInTransactionReturnResult
  | runBulkInsert
  | executeStoredProcedure
  | runTransaction
  | close
  | getSessionStore
deriving DecidableEq

/-- The module-level state of src/index.js that the dispatch reads:
`isConfigured` (line 20) and `currentAdapter` (line 17, `null` until
`configure` requires an adapter). The adapter itself is opaque here. -/
structure FacadeState where
  isConfigured : Bool
  currentAdapter : Option Unit

/-- The state at module load: `isConfigured = false`,
`currentAdapter = null`. -/
def initialFacadeState : FacadeState := ⟨false, none⟩

/-- What a Facade operation does before any asynchronous work: deliver an
error through the completion callback, forward to the adapter, or throw a
synchronous TypeError (a JS property access on `null`). -/
inductive PreOutcome
  | cbError (msg : String)
  | forwarded
  | thrownTypeError
deriving DecidableEq

/-- Embeds the entry guard of every public operation of src/index.js:
`close` (lines 78-87) and `getSessionStore` (lines 93-101) first check
`isConfigured` and deliver `Error('Module not configured.')` through the
callback; every other operation immediately evaluates
`currentAdapter.<op>(...)` (lines 113-259) with no guard, which throws a
TypeError when `currentAdapter` is `null`. -/
def facadeInvoke (st : FacadeState) : FacadeCall → PreOutcome
  | .close => if st.isConfigured then .forwarded else .cbError "Module not configured."
  | .getSessionStore => if st.isConfigured then .forwarded else .cbError "Module not configured."
  | _ =>
    match st.currentAdapter with
    | some _ => .forwarded
    | none => .thrownTypeError

--======================================================================
-- Transaction coordinators
--======================================================================

/-- Observable actions of a `runTransaction` run, in program order:
acquire/release a pooled connection, issue begin/commit/rollback, log a
diagnostic, invoke the completion callback with its error argument. -/
inductive TxAct
  | acquire
  | release
  | begin
  | commit
  | rollback
  | logged (e : String)
  | cb (err : Option String)
deriving DecidableEq

/-- Oracle for one MySQL `runTransaction` run: the outcome of each driver
call the source makes. `connOnErr` says whether `pool.getConnection`
passes a connection object alongside its error (the source guards
`if (connection) connection.release()`); `rollbackErr` is the outcome of
`connection.rollback`, whose callback in this adapter takes no error
parameter at all. -/
structure MyTxEnv where
  connErr : Option String
  connOnErr : Bool
  beginErr : Option String
  uowErr : Option String
  commitErr : Option String
  rollbackErr : Option String
deriving DecidableEq

/-- Embeds `runTransaction(executeFunction, callback)` of
src/database-adapters/mysql-adapter.js lines 328-376 as its action trace:
connection-acquire failure releases (iff a connection came) and calls
back; begin failure releases and calls back; a unit-of-work error rolls
back (ignoring any rollback failure), releases, and delivers the
unit-of-work error; on unit-of-work success the commit is issued — a
commit error triggers `connection.rollback` then release then callback
with the commit error, and commit success releases and calls back with no
error. -/
def mysqlRunTransaction (env : MyTxEnv) : List TxAct :=
  match env.connErr with
  | some e => (if env.connOnErr then [TxAct.release] else []) ++ [TxAct.cb (some e)]
  | none =>
    TxAct.acquire :: TxAct.begin ::
    match env.beginErr with
    | some e => [TxAct.release, TxAct.cb (some e)]
    | none =>
      match env.uowErr with
      | some e => [TxAct.rollback, TxAct.release, TxAct.cb (some e)]
      | none =>
        TxAct.commit ::
        match env.commitErr with
        | some e => [TxAct.rollback, TxAct.release, TxAct.cb (some e)]
        | none => [TxAct.release, TxAct.cb none]

/-- Oracle for one MSSQL `runTransaction` run. -/
structure MsTxEnv where
  poolInitialized : Bool
  beginErr : Option String
  uowErr : Option String
  commitErr : Option String
  rollbackErr : Option String
deriving DecidableEq

/-- Embeds `runTransaction(executeFunction, callback)` of
src/database-adapters/mssql-adapter.js lines 445-480 as its action trace:
an uninitialized pool calls back with the layer's own error; begin failure
calls back; a unit-of-work error rolls back, logs a rollback failure if
one occurs, and delivers the unit-of-work error; on unit-of-work success
the commit is issued and its callback error (possibly none) is delivered
verbatim — no rollback is attempted after a failed commit. The mssql
transaction object has no explicit pool-release call in this adapter. -/
def mssqlRunTransaction (env : MsTxEnv) : List TxAct :=
  if env.poolInitialized = false then [TxAct.cb (some "Connection pool not initialized.")]
  else
    TxAct.begin ::
    match env.beginErr with
    | some e => [TxAct.cb (some e)]
    | none =>
      match env.uowErr with
      | some er =>
        TxAct.rollback ::
        ((match env.rollbackErr with
          | some e2 => [TxAct.logged e2]
          | none => []) ++ [TxAct.cb (some er)])
      | none => TxAct.commit :: [TxAct.cb env.commitErr]

/-- Oracle for one PostgreSQL `runTransaction` run: the `pg.connect`
outcome and the settlement of the promise returned by the external
`pg-transact` helper (which receives the unit of work; its internal
behaviour is outside this repository). -/
structure PgTxEnv where
  connErr : Option String
  txErr : Option String
deriving DecidableEq

/-- Embeds `runTransaction(executeFunction, callback)` of
src/database-adapters/postgresql-adapter.js lines 330-355 as the action
trace of this repository's own code: a connect failure calls `done(client)`
(returning/destroying the slot) and calls back; otherwise the adapter runs
`pgTransaction(client, executeFunction, done)` and in both settlement
handlers calls `done()` once and then the callback. (The `done` handed to
the external helper is not modelled as invoked by it.) -/
def pgRunTransaction (env : PgTxEnv) : List TxAct :=
  match env.connErr with
  | some e => [TxAct.release, TxAct.cb (some e)]
  | none =>
    TxAct.acquire ::
    match env.txErr with
    | some e => [TxAct.release, TxAct.cb (some e)]
    | none => [TxAct.release, TxAct.cb none]

/-- Number of pool-release actions in a trace. -/
def countRelease : List TxAct → Nat
  | [] => 0
  | TxAct.release :: t => countRelease t + 1
  | _ :: t => countRelease t

--======================================================================
-- MSSQL runQuery error propagation
--======================================================================

/-- Oracle for one MSSQL `runQuery` run: pool state and outcomes of
`ps.prepare`, `ps.execute` (error and result set), `ps.unprepare`. -/
structure MsQEnv where
  poolInitialized : Bool
  prepareErr : Option String
  executeErr : Option String
  resultSet : Option String
  unprepareErr : Option String
deriving DecidableEq

/-- Embeds `runQuery(queryString, params, callback, multipleResultSets)`
of src/database-adapters/mssql-adapter.js lines 193-235 as the final
`callback(err, resultSet)` argument pair. The execute callback is
`function (er, resultSet)`, but the `callback(err, resultSet)` inside
`ps.unprepare` closes over `err` — the PREPARE error, which is null on
this branch — so `er` (our `executeErr`) never reaches the caller; the
same slip is in src/unnamed/part_002 lines 134-169. -/
def mssqlRunQuery (env : MsQEnv) : Option String × Option String :=
  if env.poolInitialized = false then (some "Connection pool not initialized.", none)
  else
    match env.prepareErr with
    | some e => (some e, none)
    | none => (none, env.resultSet)

/-- Embeds the parallel
`runStatementInTransaction(connection, statement, params, callback, ...)`
of src/database-adapters/mssql-adapter.js lines 315-357, whose
`callback(er, resultSet)` does use the execute error. -/
def mssqlRunStatementInTransaction (env : MsQEnv) : Option String × Option String :=
  if env.poolInitialized = false then (some "Connection pool not initialized.", none)
  else
    match env.prepareErr with
    | some e => (some e, none)
    | none => (env.executeErr, env.resultSet)

--======================================================================
-- MSSQL parameter-mode detection (isObjectParams)
--======================================================================

/-- An entry of a parameter list handed to an MSSQL execution operation:
either a raw value or a typed-parameter object `{type, name, value}`
(`type = none` models a missing/undefined field). -/
inductive MsParam
  | raw (v : JSVal)
  | obj (type : Option String) (name : String) (value : JSVal)
deriving DecidableEq

/-- Embeds `StringUtils.isEmpty` applied to a possibly-absent string field:
undefined/null stringify to `''` (empty), otherwise emptiness of the
string itself. -/
def jsFieldIsEmpty : Option String → Bool
  | none => true
  | some s => s.isEmpty

/-- The per-entry test of the `isObjectParams` loop:
`_.isObject(paramsArray[i]) && !StringUtils.isEmpty(paramsArray[i].type)`.
Raw primitives are not objects; a raw date is an object but has no `type`
field, so it also fails the test. -/
def isTypedObjEntry : MsParam → Bool
  | .raw _ => false
  | .obj t _ _ => !(jsFieldIsEmpty t)

/-- The `for` loop of `isObjectParams` with its `break`: scan until some
entry passes the typed-object test. -/
def isObjectParamsLoop : List MsParam → Bool
  | [] => false
  | p :: rest => if isTypedObjEntry p then true else isObjectParamsLoop rest

/-- Embeds `isObjectParams(paramsArray)`
(src/database-adapters/mssql-adapter.js lines 567-582): `false` for an
empty/absent list, otherwise the scanning loop. -/
def isObjectParams (l : List MsParam) : Bool :=
  if l.isEmpty then false else isObjectParamsLoop l

/-- Is an entry non-empty in the `StringUtils.isEmpty` sense used by this
module (undefined, null and the empty string are the empty values; any
object — including a typed-parameter object — stringifies non-empty)? -/
def entryNonEmpty : MsParam → Bool
  | .raw (.str s) => !s.isEmpty
  | .raw .nullV => false
  | .raw .undef => false
  | .raw _ => true
  | .obj _ _ _ => true

/-- Modelled from the spec: the claim's decision procedure — "the
Translator inspects the first non-empty entry to decide which mode
governs the whole call": find the first non-empty entry and ask whether
it is a typed-parameter object. -/
def specModeIsObject (l : List MsParam) : Bool :=
  match l.find? entryNonEmpty with
  | some p => isTypedObjEntry p
  | none => false

--======================================================================
-- Helper lemmas about the scanners
--======================================================================

theorem qCount_append (a b : List Char) : qCount (a ++ b) = qCount a + qCount b := by
  induction a with
  | nil => simp [qCount]
  | cons c t ih => simp [qCount, ih, Nat.add_assoc]

theorem qCount_le_length (t : List Char) : qCount t ≤ t.length := by
  induction t with
  | nil => simp [qCount]
  | cons c r ih =>
    by_cases hc : (c == '?') = true
    · simp [qCount, hc]; omega
    · simp [qCount, hc]; omega

theorem scanQ_clean (repl : Nat → List Char) {t : List Char} (h : qCount t = 0) (k : Nat) :
    scanQ repl t k = t := by
  induction t generalizing k with
  | nil => rfl
  | cons c r ih =>
    cases hc : c == '?' with
    | false =>
      simp only [qCount, hc] at h
      simp [scanQ, hc, ih (by omega)]
    | true => simp [qCount, hc] at h

theorem scanQ_append_clean (repl : Nat → List Char) {B : List Char} (h : qCount B = 0)
    (t : List Char) (k : Nat) : scanQ repl (B ++ t) k = B ++ scanQ repl t k := by
  induction B generalizing k with
  | nil => rfl
  | cons c r ih =>
    cases hc : c == '?' with
    | false =>
      simp only [qCount, hc] at h
      simp [scanQ, hc, ih (by omega)]
    | true => simp [qCount, hc] at h

theorem scanVals_clean (params : List JSVal) {t : List Char} (h : qCount t = 0) (k : Nat) :
    scanVals params t k = [] := by
  induction t generalizing k with
  | nil => rfl
  | cons c r ih =>
    cases hc : c == '?' with
    | false =>
      simp only [qCount, hc] at h
      simp [scanVals, hc, ih (by omega)]
    | true => simp [qCount, hc] at h

theorem scanVals_append_clean (params : List JSVal) {B : List Char} (h : qCount B = 0)
    (t : List Char) (k : Nat) : scanVals params (B ++ t) k = scanVals params t k := by
  induction B generalizing k with
  | nil => rfl
  | cons c r ih =>
    cases hc : c == '?' with
    | false =>
      simp only [qCount, hc] at h
      simp [scanVals, hc, ih (by omega)]
    | true => simp [qCount, hc] at h

theorem scanTys_clean (params : List JSVal) {t : List Char} (h : qCount t = 0) (k : Nat) :
    scanTys params t k = [] := by
  induction t generalizing k with
  | nil => rfl
  | cons c r ih =>
    cases hc : c == '?' with
    | false =>
      simp only [qCount, hc] at h
      simp [scanTys, hc, ih (by omega)]
    | true => simp [qCount, hc] at h

theorem scanTys_append_clean (params : List JSVal) {B : List Char} (h : qCount B = 0)
    (t : List Char) (k : Nat) : scanTys params (B ++ t) k = scanTys params t k := by
  induction B generalizing k with
  | nil => rfl
  | cons c r ih =>
    cases hc : c == '?' with
    | false =>
      simp only [qCount, hc] at h
      simp [scanTys, hc, ih (by omega)]
    | true => simp [qCount, hc] at h

theorem scanVals_length (params : List JSVal) (t : List Char) (k : Nat) :
    (scanVals params t k).length = qCount t := by
  induction t generalizing k with
  | nil => rfl
  | cons c r ih =>
    cases hc : c == '?' with
    | false => simp [scanVals, qCount, hc, ih]
    | true => simp [scanVals, qCount, hc, ih]; omega

theorem qIdx_none_count {t : List Char} (h : qIdx t = none) : qCount t = 0 := by
  induction t with
  | nil => rfl
  | cons c r ih =>
    by_cases hc : c = '?'
    · subst hc; simp [qIdx] at h
    · simp only [qIdx, beq_iff_eq, hc, if_false, Option.map_eq_none'] at h
      simp [qCount, hc, ih h]

theorem qIdx_some_split {t : List Char} {j : Nat} (h : qIdx t = some j) :
    ∃ B C, t = B ++ '?' :: C ∧ qCount B = 0 ∧ B.length = j := by
  induction t generalizing j with
  | nil => simp [qIdx] at h
  | cons c r ih =>
    by_cases hc : c = '?'
    · subst hc
      simp only [qIdx, beq_self_eq_true, if_true, Option.some.injEq] at h
      exact ⟨[], r, rfl, rfl, by simp [← h]⟩
    · simp only [qIdx, beq_iff_eq, hc, if_false, Option.map_eq_some'] at h
      obtain ⟨j0, hj0, hj⟩ := h
      obtain ⟨B, C, h1, h2, h3⟩ := ih hj0
      refine ⟨c :: B, C, by simp [h1], ?_, by simp [h3, ← hj]⟩
      simp [qCount, hc, h2]

theorem digitChar_ne_q (d : Nat) : (digitChar d == '?') = false := by
  rcases d with _ | _ | _ | _ | _ | _ | _ | _ | _ | d <;> rfl

theorem natChars_clean (fuel n : Nat) : qCount (natChars fuel n) = 0 := by
  induction fuel generalizing n with
  | zero => rfl
  | succ f ih =>
    by_cases hn : n < 10
    · simp [natChars, hn, qCount, digitChar_ne_q]
    · simp [natChars, hn, qCount_append, ih, qCount, digitChar_ne_q]

theorem natStr_clean (n : Nat) : qCount (natStr n) = 0 := natChars_clean (n + 1) n

theorem pname_clean (k : Nat) : qCount (pname k) = 0 := by
  have h : qCount (pname k) = qCount ['p', 'a', 'r', 'a', 'm'] + qCount (natStr k) :=
    qCount_append _ _
  rw [h, natStr_clean]
  decide

theorem msRepl_clean (k : Nat) : qCount (msRepl k) = 0 := by
  have h : qCount (msRepl k) = (if '@' == '?' then 1 else 0) + qCount (pname k) := rfl
  rw [h, pname_clean]
  decide

theorem pgRepl_clean (k : Nat) : qCount (pgRepl k) = 0 := by
  have h : qCount (pgRepl k) = (if '$' == '?' then 1 else 0) + qCount (natStr k) := rfl
  rw [h, natStr_clean]
  decide

theorem scanQ_cons_q (repl : Nat → List Char) (C : List Char) (k : Nat) :
    scanQ repl ('?' :: C) k = repl k ++ scanQ repl C (k + 1) := by
  simp [scanQ]

theorem scanVals_cons_q (params : List JSVal) (C : List Char) (k : Nat) :
    scanVals params ('?' :: C) k = (pname k, params.get? k) :: scanVals params C (k + 1) := by
  simp [scanVals]

theorem scanTys_cons_q (params : List JSVal) (C : List Char) (k : Nat) :
    scanTys params ('?' :: C) k
      = (pname k, getType (params.getD k JSVal.undef)) :: scanTys params C (k + 1) := by
  simp [scanTys]

theorem msLoop_step (params : List JSVal) (fuel : Nat) (s : List Char)
    (start index : Nat) (tys : List (List Char × SqlType))
    (vals : List (List Char × Option JSVal)) (i : Nat)
    (h : qIdxFrom s start = some i) :
    msLoop params (fuel + 1) s start index tys vals =
      msLoop params fuel (s.take i ++ ('@' :: pname index) ++ s.drop (i + 1))
        (i + 1) (index + 1)
        (tys ++ [(pname index, getType (params.getD index JSVal.undef))])
        (vals ++ [(pname index, params.get? index)]) := by
  conv_lhs => unfold msLoop
  rw [h]

theorem msLoop_fix (params : List JSVal) (fuel : Nat) (s : List Char)
    (start index : Nat) (tys : List (List Char × SqlType))
    (vals : List (List Char × Option JSVal))
    (h : qIdxFrom s start = none) :
    msLoop params (fuel + 1) s start index tys vals = ⟨s, tys, vals⟩ := by
  conv_lhs => unfold msLoop
  rw [h]

theorem msLoop_spec (params : List JSVal) :
    ∀ (fuel : Nat) (A t : List Char) (index : Nat)
      (tys : List (List Char × SqlType)) (vals : List (List Char × Option JSVal)),
      qCount t ≤ fuel →
      msLoop params fuel (A ++ t) A.length index tys vals =
        ⟨A ++ scanQ msRepl t index,
         tys ++ scanTys params t index,
         vals ++ scanVals params t index⟩ := by
  intro fuel
  induction fuel with
  | zero =>
    intro A t index tys vals h
    have h0 : qCount t = 0 := Nat.le_zero.mp h
    simp [msLoop, scanQ_clean _ h0, scanTys_clean _ h0, scanVals_clean _ h0]
  | succ fuel ih =>
    intro A t index tys vals h
    cases hq : qIdx t with
    | none =>
      have h0 : qCount t = 0 := qIdx_none_count hq
      have hfrom : qIdxFrom (A ++ t) A.length = none := by
        unfold qIdxFrom
        rw [List.drop_left, hq]
        rfl
      rw [msLoop_fix params fuel _ _ _ _ _ hfrom]
      simp [scanQ_clean _ h0, scanTys_clean _ h0, scanVals_clean _ h0]
    | some j =>
      obtain ⟨B, C, hBC, hBclean, hBlen⟩ := qIdx_some_split hq
      have hfrom : qIdxFrom (A ++ t) A.length = some (j + A.length) := by
        unfold qIdxFrom
        rw [List.drop_left, hq]
        rfl
      rw [msLoop_step params fuel _ _ _ _ _ _ hfrom]
      subst hBC
      have hiAB : j + A.length = (A ++ B).length := by
        simp [List.length_append, hBlen]
        omega
      have htake : (A ++ (B ++ '?' :: C)).take (j + A.length) = A ++ B := by
        rw [hiAB, ← List.append_assoc]
        exact List.take_left (A ++ B) ('?' :: C)
      have hdrop : (A ++ (B ++ '?' :: C)).drop (j + A.length + 1) = C := by
        rw [hiAB, ← List.append_assoc, ← List.drop_drop, List.drop_left]
        rfl
      rw [htake, hdrop]
      have hstr : (A ++ B) ++ ('@' :: pname index) ++ C
          = (A ++ B ++ ['@']) ++ (pname index ++ C) := by
        simp
      have hlen2 : j + A.length + 1 = (A ++ B ++ ['@']).length := by
        simp [List.length_append, hBlen]
        omega
      rw [hstr, hlen2]
      have hcount : qCount (pname index ++ C) ≤ fuel := by
        rw [qCount_append, pname_clean]
        have hsplit := qCount_append B ('?' :: C)
        have hqc : qCount ('?' :: C) = 1 + qCount C := by simp [qCount]
        rw [hsplit, hBclean, hqc] at h
        omega
      rw [ih (A ++ B ++ ['@']) (pname index ++ C) (index + 1) _ _ hcount]
      rw [scanQ_append_clean _ hBclean, scanQ_cons_q,
        scanQ_append_clean _ (pname_clean index),
        scanTys_append_clean _ hBclean, scanTys_cons_q,
        scanTys_append_clean _ (pname_clean index),
        scanVals_append_clean _ hBclean, scanVals_cons_q,
        scanVals_append_clean _ (pname_clean index)]
      simp [msRepl]

theorem pgLoop_step (fuel : Nat) (s : List Char) (start index i : Nat)
    (h : qIdxFrom s start = some i) :
    pgLoop (fuel + 1) s start index =
      pgLoop fuel (s.take i ++ ('$' :: natStr index) ++ s.drop (i + 1)) (i + 1) (index + 1) := by
  conv_lhs => unfold pgLoop
  rw [h]

theorem pgLoop_fix (fuel : Nat) (s : List Char) (start index : Nat)
    (h : qIdxFrom s start = none) :
    pgLoop (fuel + 1) s start index = s := by
  conv_lhs => unfold pgLoop
  rw [h]

theorem pgLoop_spec :
    ∀ (fuel : Nat) (A t : List Char) (index : Nat),
      qCount t ≤ fuel →
      pgLoop fuel (A ++ t) A.length index = A ++ scanQ pgRepl t index := by
  intro fuel
  induction fuel with
  | zero =>
    intro A t index h
    have h0 : qCount t = 0 := Nat.le_zero.mp h
    simp [pgLoop, scanQ_clean _ h0]
  | succ fuel ih =>
    intro A t index h
    cases hq : qIdx t with
    | none =>
      have h0 : qCount t = 0 := qIdx_none_count hq
      have hfrom : qIdxFrom (A ++ t) A.length = none := by
        unfold qIdxFrom
        rw [List.drop_left, hq]
        rfl
      rw [pgLoop_fix fuel _ _ _ hfrom]
      simp [scanQ_clean _ h0]
    | some j =>
      obtain ⟨B, C, hBC, hBclean, hBlen⟩ := qIdx_some_split hq
      have hfrom : qIdxFrom (A ++ t) A.length = some (j + A.length) := by
        unfold qIdxFrom
        rw [List.drop_left, hq]
        rfl
      rw [pgLoop_step fuel _ _ _ _ hfrom]
      subst hBC
      have hiAB : j + A.length = (A ++ B).length := by
        simp [List.length_append, hBlen]
        omega
      have htake : (A ++ (B ++ '?' :: C)).take (j + A.length) = A ++ B := by
        rw [hiAB, ← List.append_assoc]
        exact List.take_left (A ++ B) ('?' :: C)
      have hdrop : (A ++ (B ++ '?' :: C)).drop (j + A.length + 1) = C := by
        rw [hiAB, ← List.append_assoc, ← List.drop_drop, List.drop_left]
        rfl
      rw [htake, hdrop]
      have hstr : (A ++ B) ++ ('$' :: natStr index) ++ C
          = (A ++ B ++ ['$']) ++ (natStr index ++ C) := by
        simp
      have hlen2 : j + A.length + 1 = (A ++ B ++ ['$']).length := by
        simp [List.length_append, hBlen]
        omega
      rw [hstr, hlen2]
      have hcount : qCount (natStr index ++ C) ≤ fuel := by
        rw [qCount_append, natStr_clean]
        have hsplit := qCount_append B ('?' :: C)
        have hqc : qCount ('?' :: C) = 1 + qCount C := by simp [qCount]
        rw [hsplit, hBclean, hqc] at h
        omega
      rw [ih (A ++ B ++ ['$']) (natStr index ++ C) (index + 1) hcount]
      rw [scanQ_append_clean _ hBclean, scanQ_cons_q,
        scanQ_append_clean _ (natStr_clean index)]
      simp [pgRepl]

theorem queryToStringGo_scan (params : List QParam) :
    ∀ (t : List Char) (k : Nat),
      queryToStringGo params t k = scanQ (fun k => renderQP (params.get? k)) t k := by
  intro t
  induction t with
  | nil => intro k; rfl
  | cons c r ih =>
    intro k
    by_cases hc : (c == '?') = true
    · simp [queryToStringGo, scanQ, hc, ih]
    · simp [queryToStringGo, scanQ, hc, ih]

theorem isObjectParamsLoop_any :
    ∀ l : List MsParam, isObjectParamsLoop l = l.any isTypedObjEntry := by
  intro l
  induction l with
  | nil => rfl
  | cons p rest ih => cases hp : isTypedObjEntry p <;> simp [isObjectParamsLoop, hp, ih]

--======================================================================
-- Claim theorems
--======================================================================

/-- Claim C1: for every call to `runTransaction`, on every exit path —
begin failure, unit-of-work failure, rollback failure, commit failure,
and success — the acquired connection/transaction handle is released back
to the pool exactly once per transaction. For the MySQL adapter this
holds on every path on which a connection was acquired (quantified over
all begin/unit-of-work/commit/rollback outcomes); for the PostgreSQL
adapter every path of the adapter's own code performs exactly one `done`
call. -/
theorem runTransaction_release_exactly_once :
    (∀ env : MyTxEnv, env.connErr = none → countRelease (mysqlRunTransaction env) = 1) ∧
    (∀ env : PgTxEnv, countRelease (pgRunTransaction env) = 1) := by
  constructor
  · intro env h
    obtain ⟨ce, co, be, ue, cme, re⟩ := env
    simp only at h
    subst h
    cases be <;> cases ue <;> cases cme <;> rfl
  · intro env
    obtain ⟨ce, te⟩ := env
    cases ce <;> cases te <;> rfl

/-- Witness for C1: a concrete MySQL run whose unit of work fails, and a
concrete PostgreSQL run whose transaction promise rejects, each release
the connection exactly once. -/
theorem runTransaction_release_exactly_once_instance :
    countRelease (mysqlRunTransaction ⟨none, false, none, some "unit of work failed", none, none⟩) = 1 ∧
    countRelease (pgRunTransaction ⟨none, some "tx failed"⟩) = 1 :=
  ⟨runTransaction_release_exactly_once.1 _ rfl, runTransaction_release_exactly_once.2 _⟩

/-- Counterexample to claim C2: in the MySQL adapter, a run whose unit of
work succeeds and whose commit fails produces a trace in which a rollback
IS issued after the failed commit (before the commit error is delivered),
contradicting "no rollback is issued after the failed commit". -/
theorem mysql_rollback_after_failed_commit :
    mysqlRunTransaction ⟨none, false, none, none, some "commit failed", none⟩ =
      [TxAct.acquire, TxAct.begin, TxAct.commit, TxAct.rollback, TxAct.release,
        TxAct.cb (some "commit failed")] ∧
    TxAct.rollback ∈ mysqlRunTransaction ⟨none, false, none, none, some "commit failed", none⟩ := by
  exact ⟨rfl, by decide⟩

/-- Claim C2 as amended: when the unit of work signals success the
coordinator issues commit, and a commit failure is delivered to the
caller as the operation's outcome on both engines; the MSSQL coordinator
issues no rollback after a failed commit, but the MySQL coordinator does
issue a rollback after the failed commit before delivering the commit
error. -/
theorem commit_failure_outcome :
    (∀ (env : MsTxEnv) (e : String), env.poolInitialized = true → env.beginErr = none →
      env.uowErr = none → env.commitErr = some e →
      mssqlRunTransaction env = [TxAct.begin, TxAct.commit, TxAct.cb (some e)]) ∧
    (∀ (env : MyTxEnv) (e : String), env.connErr = none → env.beginErr = none →
      env.uowErr = none → env.commitErr = some e →
      mysqlRunTransaction env =
        [TxAct.acquire, TxAct.begin, TxAct.commit, TxAct.rollback, TxAct.release,
          TxAct.cb (some e)]) := by
  constructor
  · intro env e h1 h2 h3 h4
    obtain ⟨p, be, ue, ce, re⟩ := env
    simp only at h1 h2 h3 h4
    subst h1; subst h2; subst h3; subst h4
    rfl
  · intro env e h1 h2 h3 h4
    obtain ⟨ce, co, be, ue, cme, re⟩ := env
    simp only at h1 h2 h3 h4
    subst h1; subst h2; subst h3; subst h4
    rfl

/-- Witness for the amended C2: concrete commit-failure runs on both
engines. -/
theorem commit_failure_outcome_instance :
    mssqlRunTransaction ⟨true, none, none, some "commit failed", none⟩ =
      [TxAct.begin, TxAct.commit, TxAct.cb (some "commit failed")] ∧
    mysqlRunTransaction ⟨none, false, none, none, some "commit failed", none⟩ =
      [TxAct.acquire, TxAct.begin, TxAct.commit, TxAct.rollback, TxAct.release,
        TxAct.cb (some "commit failed")] :=
  ⟨commit_failure_outcome.1 _ _ rfl rfl rfl rfl, commit_failure_outcome.2 _ _ rfl rfl rfl rfl⟩

/-- Counterexample to claim C3: on the query `"?"` with one parameter the
MSSQL translator (whose first `indexOf` search starts at position 1)
replaces nothing and records zero named parameters, although the
statement has one placeholder — so the claimed full left-to-right
translation and the "N placeholders yield exactly N named parameters"
consequence both fail. -/
theorem mssql_convert_misses_leading_placeholder :
    convertQueryAndParamsForMSSql ['?'] [JSVal.num true] ≠
      ⟨scanQ msRepl ['?'] 0, scanTys [JSVal.num true] ['?'] 0,
        scanVals [JSVal.num true] ['?'] 0⟩ ∧
    (convertQueryAndParamsForMSSql ['?'] [JSVal.num true]).values.length = 0 ∧
    qCount ['?'] = 1 := by
  refine ⟨by decide, by decide, by decide⟩

/-- Claim C3 as amended: the MSSQL translator passes the first character
of the statement through untouched (a `?` in position 0 is never
replaced, since the scan starts at index 1) and then replaces each
subsequent `?`, scanning left to right, with `@param0`, `@param1`, … in
encounter order, recording the i-th parameter value under the key
`parami` (and its inferred type via `ps.input`); the number of named
parameters equals the number of placeholders after the first character.
For every statement that does not begin with a `?` this is exactly the
original claim. -/
theorem mssql_convert_characterization :
    ∀ (q : List Char) (params : List JSVal),
      convertQueryAndParamsForMSSql q params =
        (match q with
         | [] => ⟨[], [], []⟩
         | c :: t => ⟨c :: scanQ msRepl t 0, scanTys params t 0, scanVals params t 0⟩) ∧
      (convertQueryAndParamsForMSSql q params).values.length = qCount (q.drop 1) := by
  intro q params
  cases q with
  | nil => exact ⟨rfl, rfl⟩
  | cons c t =>
    have hb : qCount t ≤ t.length + 2 := by
      have := qCount_le_length t
      omega
    have h := msLoop_spec params (t.length + 2) [c] t 0 [] [] hb
    have hmain : convertQueryAndParamsForMSSql (c :: t) params =
        ⟨c :: scanQ msRepl t 0, scanTys params t 0, scanVals params t 0⟩ := by
      simpa using h
    refine ⟨hmain, ?_⟩
    rw [hmain]
    simp [scanVals_length]

/-- Claim C4: code bug. On the PostgreSQL engine,
`runStatementReturnResult` was supposed to append
`' RETURNING <idField>'`, but the source calls `addReturningID(query)`
without the second argument, so the appended text is the literal
`RETURNING undefined` regardless of the caller-supplied `idField`; the
in-transaction variant, which does forward `idField`, appends
`RETURNING id` as the claim describes. -/
theorem pg_returning_clause_appends_undefined :
    pgReturnResultQuery "insert into t values(?)".data "id".data =
      "insert into t values($1) RETURNING undefined".data ∧
    pgInTxReturnResultQuery "insert into t values(?)".data "id".data =
      "insert into t values($1) RETURNING id".data := by
  decide

/-- Claim C5: code bug. In the MSSQL adapter's `runQuery`, when the pool
is up and `prepare` succeeds but `execute` fails, the final callback
receives `(null, undefined)` — the execute error is discarded because the
source passes the enclosing `prepare` error variable to the callback —
so the failure is reported to the caller as success; the structurally
identical `runStatementInTransaction` correctly delivers the execute
error. -/
theorem mssql_runQuery_swallows_execute_error :
    mssqlRunQuery ⟨true, none, some "Invalid column name", none, none⟩ = (none, none) ∧
    mssqlRunStatementInTransaction ⟨true, none, some "Invalid column name", none, none⟩ =
      (some "Invalid column name", none) := by
  decide

/-- Counterexample to claim C6: invoking `runStringQuery` on the
unconfigured Facade does not deliver the "not configured" error through
the completion callback — it dereferences the null adapter and throws a
synchronous TypeError. -/
theorem facade_unconfigured_runStringQuery_throws :
    facadeInvoke initialFacadeState FacadeCall.runStringQuery = PreOutcome.thrownTypeError ∧
    facadeInvoke initialFacadeState FacadeCall.runStringQuery ≠
      PreOutcome.cbError "Module not configured." := by
  exact ⟨rfl, by decide⟩

/-- Claim C6 as amended: before `configure` has completed, only `close`
and `getSessionStore` fail by delivering `Error('Module not configured.')`
through the completion callback; every other public operation of the
Facade forwards to the (still null) adapter unguarded and therefore
throws a synchronous TypeError instead. -/
theorem facade_unconfigured_behavior :
    ∀ c : FacadeCall,
      facadeInvoke initialFacadeState c =
        (if c = FacadeCall.close ∨ c = FacadeCall.getSessionStore then
          PreOutcome.cbError "Module not configured."
        else PreOutcome.thrownTypeError) := by
  intro c
  cases c <;> rfl

/-- Claim C7: when the unit of work signals failure with error E, the
coordinator issues a rollback and E is delivered to the caller; the trace
is independent of the rollback outcome (MySQL's rollback callback takes
no error parameter at all; MSSQL logs a rollback failure as a diagnostic
only), so no rollback failure ever replaces E. -/
theorem uow_failure_error_delivery :
    (∀ (env : MyTxEnv) (e : String), env.connErr = none → env.beginErr = none →
      env.uowErr = some e →
      mysqlRunTransaction env =
        [TxAct.acquire, TxAct.begin, TxAct.rollback, TxAct.release, TxAct.cb (some e)]) ∧
    (∀ (env : MsTxEnv) (e : String), env.poolInitialized = true → env.beginErr = none →
      env.uowErr = some e →
      mssqlRunTransaction env = TxAct.begin :: TxAct.rollback ::
        ((match env.rollbackErr with
          | some e2 => [TxAct.logged e2]
          | none => []) ++ [TxAct.cb (some e)])) := by
  constructor
  · intro env e h1 h2 h3
    obtain ⟨ce, co, be, ue, cme, re⟩ := env
    simp only at h1 h2 h3
    subst h1; subst h2; subst h3
    rfl
  · intro env e h1 h2 h3
    obtain ⟨p, be, ue, ce, re⟩ := env
    simp only at h1 h2 h3
    subst h1; subst h2; subst h3
    cases re <;> rfl

/-- Witness for C7: concrete unit-of-work failures on both engines, with
a failing rollback on the MSSQL side that is only logged. -/
theorem uow_failure_error_delivery_instance :
    mysqlRunTransaction ⟨none, false, none, some "uow failed", none, some "rollback failed"⟩ =
      [TxAct.acquire, TxAct.begin, TxAct.rollback, TxAct.release, TxAct.cb (some "uow failed")] ∧
    mssqlRunTransaction ⟨true, none, some "uow failed", none, some "rollback failed"⟩ =
      [TxAct.begin, TxAct.rollback, TxAct.logged "rollback failed", TxAct.cb (some "uow failed")] :=
  ⟨uow_failure_error_delivery.1 _ _ rfl rfl rfl,
    uow_failure_error_delivery.2 ⟨true, none, some "uow failed", none, some "rollback failed"⟩ _
      rfl rfl rfl⟩

/-- Counterexample to claim C8: a mixed parameter list whose first
(non-empty) entry is the raw number 5 and whose second entry is a typed
parameter object is classified as typed-object mode by `isObjectParams`,
while the claimed first-non-empty-entry rule would classify it as raw
mode; nothing rejects the mixed list. -/
theorem isObjectParams_ignores_first_raw_entry :
    isObjectParams [MsParam.raw (JSVal.num true), MsParam.obj (some "Int") "p0" (JSVal.num true)] = true ∧
    specModeIsObject [MsParam.raw (JSVal.num true), MsParam.obj (some "Int") "p0" (JSVal.num true)] = false := by
  decide

/-- Claim C8 as amended: the mode governing an MSSQL execution call is
typed-object mode exactly when SOME entry of the parameter list is an
object with a non-empty `type` field (the scan stops at the first such
entry); mixed collections are not rejected — one typed object anywhere
puts the whole call in typed-object mode. -/
theorem isObjectParams_any_characterization :
    ∀ l : List MsParam, isObjectParams l = l.any isTypedObjEntry := by
  intro l
  cases l with
  | nil => rfl
  | cons p rest => simp [isObjectParams, isObjectParamsLoop_any]

/-- Claim C9: on the sequential-numbered (PostgreSQL) engine the
translator replaces each `?`, scanning left to right, with `$1`, `$2`, …
in strictly increasing order starting at 1, leaving every other character
unchanged: the index-juggling `while` loop of `replacePlaceHolders`
equals the one-pass left-to-right scanner for every statement. -/
theorem replacePlaceHolders_sequential_numbering (s : List Char) :
    replacePlaceHolders s = scanQ pgRepl s 1 := by
  have h := pgLoop_spec (s.length + 1) [] s 1 (by have := qCount_le_length s; omega)
  simpa using h

/-- Claim C10: `queryToString` substitutes each `?` in order with the
rendering of the corresponding parameter — a string starting with `[@]`
is inserted unquoted with every `[@]` replaced by `@`, any other string
is single-quoted with embedded quotes escaped as backslash-quote — as
shown by the equality with the left-to-right scanner and by the spec's
own examples (including the `[@]` form). -/
theorem queryToString_substitution :
    (∀ (sqlText : List Char) (params : List QParam),
      queryToString sqlText params = scanQ (fun k => renderQP (params.get? k)) sqlText 0) ∧
    queryToString "WHERE id=?".data [QParam.lit ['5']] = "WHERE id=5".data ∧
    queryToString "WHERE name=?".data [QParam.str "O'Brien".data] =
      ('W' :: 'H' :: 'E' :: 'R' :: 'E' :: ' ' :: 'n' :: 'a' :: 'm' :: 'e' :: '=' ::
        '\'' :: 'O' :: '\\' :: '\'' :: 'B' :: 'r' :: 'i' :: 'e' :: 'n' :: ['\'']) ∧
    queryToString "a=?".data [QParam.str "[@]x[@]y".data] = "a=@x@y".data := by
  refine ⟨fun s params => queryToStringGo_scan params s 0, by decide, by decide, by decide⟩
